import Mathlib

/-!
Verification development for the QA weekly-report script (src/qa_report.py).

Modelling conventions of the shallow embedding:
* Python floats are modelled as exact rationals.
* datetime instants are modelled as integer seconds on the proleptic
  Gregorian calendar (the ordinal-day count used by Python datetime,
  scaled by 86400); comparisons of datetimes coincide with comparisons of
  these integers.
* The two regular expressions of the script are modelled as deterministic
  matchers.  In both patterns every repeated character class is followed
  by a literal or class that is disjoint from it, so greedy matching with
  no backtracking computes exactly the Python re.search result; the
  search tries each start offset from the left, as re.search does.
* Character classes are modelled at ASCII precision.
-/

namespace QAReport

/-- Configured sheet names (qa_report.py line 19). -/
def SHEET_NAMES : List String :=
  ["Tournaments", "Loyalty Program", "Rakeback", "Secretbox", "Boosters",
   "Widget Settings", "Media Library"]

/-! ### Regular-expression primitives -/

/-- The class \d (ASCII). -/
def isDigitC (c : Char) : Bool := c.isDigit

/-- The class \s (ASCII). -/
def isSpaceC (c : Char) : Bool :=
  c == ' ' || c == '\t' || c == '\n' || c == '\x0b' || c == '\x0c' || c == '\r'

/-- The class [\d.] of the runtime pattern. -/
def isNumDotC (c : Char) : Bool := c.isDigit || c == '.'

/-- The class [smh] of the runtime pattern, under re.IGNORECASE. -/
def isUnitC (c : Char) : Bool :=
  c.toLower == 's' || c.toLower == 'm' || c.toLower == 'h'

/-- Character comparison under re.IGNORECASE (ASCII). -/
def ceq (a b : Char) : Bool := a.toLower == b.toLower

/-- Greedy `+` on a character class: longest nonempty prefix satisfying p,
returning the prefix and the remainder. -/
def many1 (p : Char → Bool) (s : List Char) : Option (List Char × List Char) :=
  let t := s.takeWhile p
  if t.isEmpty then none else some (t, s.drop t.length)

/-- Case-insensitive literal, returning the remainder on success. -/
def lit : List Char → List Char → Option (List Char)
  | [], s => some s
  | _ :: _, [] => none
  | p :: ps, c :: cs => if ceq p c then lit ps cs else none

/-- Greedy `?` on a single literal character. -/
def optC (ch : Char) : List Char → List Char
  | [] => []
  | c :: cs => if ceq ch c then cs else c :: cs

/-- Value of a digit group, as Python int() of the captured text. -/
def digitsToNat (ds : List Char) : Nat :=
  ds.foldl (fun a c => 10 * a + (c.toNat - 48)) 0

/-! ### The primary test-result pattern (qa_report.py line 251)

`(\d+)\s+tests?\s+from\s+\d+\s+shards?:\s+(\d+)\s+passed,\s+(\d+)\s+failed,?\s+(\d+)\s+flaky`
with re.IGNORECASE.  Captures: total, passed, failed, flaky. -/

/-- Stage `(\d+)\s+tests?\s+from\s+` of the primary pattern: returns the
first capture and the remainder. -/
def matchTestA (s : List Char) : Option (List Char × List Char) := do
  let (g1, s) ← many1 isDigitC s
  let (_, s) ← many1 isSpaceC s
  let s ← lit "test".data s
  let s := optC 's' s
  let (_, s) ← many1 isSpaceC s
  let s ← lit "from".data s
  let (_, s) ← many1 isSpaceC s
  return (g1, s)

/-- Stage `\d+\s+shards?:\s+` of the primary pattern (uncaptured group). -/
def matchTestB (s : List Char) : Option (List Char) := do
  let (_, s) ← many1 isDigitC s
  let (_, s) ← many1 isSpaceC s
  let s ← lit "shard".data s
  let s := optC 's' s
  let s ← lit ":".data s
  let (_, s) ← many1 isSpaceC s
  return s

/-- Stage `(\d+)\s+passed,\s+` of the primary pattern. -/
def matchTestC (s : List Char) : Option (List Char × List Char) := do
  let (g2, s) ← many1 isDigitC s
  let (_, s) ← many1 isSpaceC s
  let s ← lit "passed,".data s
  let (_, s) ← many1 isSpaceC s
  return (g2, s)

/-- Stage `(\d+)\s+failed,?\s+` of the primary pattern. -/
def matchTestD (s : List Char) : Option (List Char × List Char) := do
  let (g3, s) ← many1 isDigitC s
  let (_, s) ← many1 isSpaceC s
  let s ← lit "failed".data s
  let s := optC ',' s
  let (_, s) ← many1 isSpaceC s
  return (g3, s)

/-- Stage `(\d+)\s+flaky` of the primary pattern. -/
def matchTestE (s : List Char) : Option (List Char) := do
  let (g4, s) ← many1 isDigitC s
  let (_, s) ← many1 isSpaceC s
  let _ ← lit "flaky".data s
  return g4

/-- Attempt the primary pattern anchored at the head of s: the sequential
composition of its five stages. -/
def matchTestAt (s : List Char) : Option (Nat × Nat × Nat × Nat) := do
  let (g1, s) ← matchTestA s
  let s ← matchTestB s
  let (g2, s) ← matchTestC s
  let (g3, s) ← matchTestD s
  let g4 ← matchTestE s
  return (digitsToNat g1, digitsToNat g2, digitsToNat g3, digitsToNat g4)

/-- re.search of the primary pattern: leftmost start offset that matches. -/
def searchTest : List Char → Option (Nat × Nat × Nat × Nat)
  | [] => matchTestAt []
  | c :: cs =>
    match matchTestAt (c :: cs) with
    | some r => some r
    | none => searchTest cs

/-! ### The runtime pattern (qa_report.py line 261)

`Test runtime:\s+([\d.]+[smh]+)` with re.IGNORECASE; the capture keeps the
original character case. -/

/-- Attempt the runtime pattern anchored at the head of s. -/
def matchRuntimeAt (s : List Char) : Option (List Char) := do
  let s ← lit "Test runtime:".data s
  let (_, s) ← many1 isSpaceC s
  let (num, s) ← many1 isNumDotC s
  let (u, _) ← many1 isUnitC s
  return num ++ u

/-- re.search of the runtime pattern. -/
def searchRuntime : List Char → Option (List Char)
  | [] => matchRuntimeAt []
  | c :: cs =>
    match matchRuntimeAt (c :: cs) with
    | some r => some r
    | none => searchRuntime cs

/-! ### parse_test_message (qa_report.py lines 247-283) -/

/-- The record built by parse_test_message; the timestamp field is attached
later by the message loop (line 239). -/
structure TestResult where
  total : Nat
  passed : Nat
  failed : Nat
  flaky : Nat
  pass_rate : ℚ
  runtime : String
  status : String
  timestamp : Option String
deriving DecidableEq

def parse_test_message (message_text : String) : Option TestResult :=
  match searchTest message_text.data with
  | none => none
  | some (total_tests, passed, failed, flaky) =>
    let runtime : String :=
      match searchRuntime message_text.data with
      | some g => String.mk g
      | none => "N/A"
    let pass_rate : ℚ :=
      if total_tests > 0 then (passed : ℚ) / (total_tests : ℚ) * 100 else 0
    let status : String := if failed = 0 then "✅ Succeeded" else "❌ Failed"
    some { total := total_tests, passed := passed, failed := failed,
           flaky := flaky, pass_rate := pass_rate, runtime := runtime,
           status := status, timestamp := none }

/-! ### aggregate_test_results (qa_report.py lines 285-310) -/

structure TestAggregation where
  total_runs : Nat
  total_tests : Nat
  total_passed : Nat
  total_failed : Nat
  total_flaky : Nat
  pass_rate : ℚ
  successful_runs : Nat
  failed_runs : Nat
deriving DecidableEq

def aggregate_test_results (test_results_list : List TestResult) : Option TestAggregation :=
  if test_results_list = [] then none
  else
    let total_passed := (test_results_list.map TestResult.passed).sum
    let total_failed := (test_results_list.map TestResult.failed).sum
    let total_flaky := (test_results_list.map TestResult.flaky).sum
    let total_tests := (test_results_list.map TestResult.total).sum
    let overall_pass_rate : ℚ :=
      if total_tests > 0 then (total_passed : ℚ) / (total_tests : ℚ) * 100 else 0
    let successes := test_results_list.countP (fun r => r.failed == 0)
    let failures := test_results_list.length - successes
    some { total_runs := test_results_list.length, total_tests := total_tests,
           total_passed := total_passed, total_failed := total_failed,
           total_flaky := total_flaky, pass_rate := overall_pass_rate,
           successful_runs := successes, failed_runs := failures }

/-! ### Date parsing and the 7-day window (qa_report.py lines 37-72)

Python strptime with format string %m/%d/%Y compiles to the pattern
`(1[0-2]|0[1-9]|[1-9])/(3[01]|[12]\d|0[1-9]|[1-9])/(\d\d\d\d)` anchored on
the whole (stripped) string, and the datetime constructor then validates
the day against the month length and rejects year 0.  Because the literal
separator / never occurs inside a field, this is equivalent to splitting
the string at every / and validating the three fields independently. -/

structure Date where
  month : Nat
  day : Nat
  year : Nat
deriving DecidableEq

/-- Python str.strip whitespace (ASCII). -/
def isPyWs (c : Char) : Bool :=
  c == ' ' || c == '\t' || c == '\n' || c == '\x0b' || c == '\x0c' || c == '\r'

def stripWs (s : List Char) : List Char :=
  ((s.dropWhile isPyWs).reverse.dropWhile isPyWs).reverse

/-- Split at every occurrence of the / separator. -/
def splitSlash : List Char → List (List Char)
  | [] => [[]]
  | c :: cs =>
    let r := splitSlash cs
    if c == '/' then [] :: r
    else
      match r with
      | [] => [[c]]
      | h :: t => (c :: h) :: t

def allDigits (s : List Char) : Bool := s.all isDigitC

/-- The %m field: one or two digits whose value is a month number. -/
def monthField (s : List Char) : Option Nat :=
  if allDigits s && 1 ≤ s.length && s.length ≤ 2
      && 1 ≤ digitsToNat s && digitsToNat s ≤ 12
  then some (digitsToNat s) else none

/-- The %d field: one or two digits whose value is between 1 and 31. -/
def dayField (s : List Char) : Option Nat :=
  if allDigits s && 1 ≤ s.length && s.length ≤ 2
      && 1 ≤ digitsToNat s && digitsToNat s ≤ 31
  then some (digitsToNat s) else none

/-- The %Y field: exactly four digits. -/
def yearField (s : List Char) : Option Nat :=
  if allDigits s && s.length = 4 then some (digitsToNat s) else none

def isLeap (y : Nat) : Bool := y % 4 == 0 && (y % 100 != 0 || y % 400 == 0)

def daysInMonth (m y : Nat) : Nat :=
  if m = 2 then (if isLeap y then 29 else 28)
  else if m = 4 ∨ m = 6 ∨ m = 9 ∨ m = 11 then 30 else 31

/-- parse_date (lines 37-42): strptime on the stripped string in %m/%d/%Y
format, yielding the date on success and the None sentinel on ValueError. -/
def parse_date (date_str : String) : Option Date :=
  match splitSlash (stripWs date_str.data) with
  | [ms, ds, ys] =>
    match monthField ms, dayField ds, yearField ys with
    | some m, some d, some y =>
      if 1 ≤ y ∧ d ≤ daysInMonth m y then some ⟨m, d, y⟩ else none
    | _, _, _ => none
  | _ => none

/-- Days before the first of the month within a year (non-leap). -/
def cumDaysBefore (m : Nat) : Nat :=
  [0, 0, 31, 59, 90, 120, 151, 181, 212, 243, 273, 304, 334].getD m 0

/-- Proleptic Gregorian ordinal of a date (the day count Python datetime
orders dates by). -/
def toOrdinal (dt : Date) : Nat :=
  let y := dt.year - 1
  365 * y + y / 4 - y / 100 + y / 400
    + cumDaysBefore dt.month
    + (if 2 < dt.month ∧ isLeap dt.year then 1 else 0)
    + (dt.day - 1)

/-- The instant of midnight of a date, in seconds; strptime fills the time
fields of the parsed datetime with zero. -/
def dateSeconds (dt : Date) : Int := 86400 * (toOrdinal dt : Int)

/-- The membership test of the bug-counting loop (lines 62-67): the record
counts when its date field is nonempty, parses, and the parsed datetime
lies between today minus seven days and today, both bounds included.
today is the datetime.now() instant in seconds. -/
def record_in_window (today : Int) (date_str : String) : Bool :=
  if date_str = "" then false
  else
    match parse_date date_str with
    | none => false
    | some dt => decide (today - 7 * 86400 ≤ dateSeconds dt ∧ dateSeconds dt ≤ today)

/-- get_bugs_from_sheet (lines 44-72).  The fetched rows are modelled by
their date-column values; the none input models a fetch that raised, which
the except branch turns into the count 0. -/
def get_bugs_from_sheet (today : Int) (fetched : Option (List String)) : Nat :=
  match fetched with
  | none => 0
  | some records =>
    if records = [] then 0
    else (records.filter (record_in_window today)).length

/-- The bug-collection loop of main (lines 349-356): one entry per
configured sheet name, in configured order. -/
def bugs_by_sheet_main (today : Int) (fetch : String → Option (List String)) :
    List (String × Nat) :=
  SHEET_NAMES.map (fun sheet_name => (sheet_name, get_bugs_from_sheet today (fetch sheet_name)))

/-! ### create_slack_message (qa_report.py lines 74-165)

The Slack block dicts are modelled by a four-constructor block type; the
Python function builds the block list by successive appends, decomposed
here into the bug blocks, the test blocks and the fixed frame. -/

inductive Block where
  | header (text : String)
  | sectionBlock (text : String)
  | divider
  | context (text : String)
deriving DecidableEq

/-- Round to the nearest integer, ties to even, the rounding of Python
fixed-point formatting. -/
def roundHalfEven (q : ℚ) : Int :=
  let f := q.floor
  let r := q - f
  if r < 1 / 2 then f
  else if 1 / 2 < r then f + 1
  else if f % 2 = 0 then f else f + 1

/-- Value-level model of Python one-decimal fixed formatting {:.1f},
applied to the exact rational. -/
def fmtRat1 (q : ℚ) : String :=
  let n := roundHalfEven (q * 10)
  let sign := if n < 0 then "-" else ""
  let a := n.natAbs
  sign ++ toString (a / 10) ++ "." ++ toString (a % 10)

/-- One bug-breakdown line (line 101). -/
def bugLine (p : String × Nat) : String :=
  "• " ++ p.1 ++ ": " ++ toString p.2 ++ " bug"
    ++ (if p.2 ≠ 1 then "s" else "") ++ "\n"

def total_bugs (bugs_by_sheet : List (String × Nat)) : Nat :=
  (bugs_by_sheet.map Prod.snd).sum

def breakdown_text (bugs_by_sheet : List (String × Nat)) : String :=
  "*Breakdown by feature:*\n" ++ String.join (bugs_by_sheet.map bugLine)

/-- The bug sections (lines 89-109): the total, then the breakdown when
the mapping is nonempty. -/
def bugBlocks (bugs_by_sheet : List (String × Nat)) : List Block :=
  [Block.sectionBlock ("*🐛 Bugs Found This Week: "
      ++ toString (total_bugs bugs_by_sheet) ++ "*")]
  ++ (if bugs_by_sheet ≠ [] then [Block.sectionBlock (breakdown_text bugs_by_sheet)] else [])

/-- The tier indicator (line 115). -/
def pass_rate_emoji (pr : ℚ) : String :=
  if pr ≥ 95 then "🟢" else if pr ≥ 80 then "🟡" else "🔴"

/-- The test-detail text (lines 125-134). -/
def test_details (a : TestAggregation) : String :=
  "*Test Runs:* " ++ toString a.total_runs ++ "\n"
    ++ "• Successful: " ++ toString a.successful_runs ++ "\n"
    ++ "• Failed: " ++ toString a.failed_runs ++ "\n\n"
    ++ "*Overall Stats:*\n"
    ++ "• Total Tests: " ++ toString a.total_tests ++ "\n"
    ++ "• Passed: " ++ toString a.total_passed ++ "\n"
    ++ "• Failed: " ++ toString a.total_failed ++ "\n"
    ++ "• Flaky: " ++ toString a.total_flaky

/-- The test sections (lines 114-150). -/
def testBlocks : Option TestAggregation → List Block
  | some a =>
    [Block.sectionBlock ("*🧪 Test Results Summary*\n" ++ pass_rate_emoji a.pass_rate
        ++ " *Pass Rate: " ++ fmtRat1 a.pass_rate ++ "%*"),
     Block.sectionBlock (test_details a)]
  | none => [Block.sectionBlock "*🧪 Test Results:* No test runs found this week"]

/-- create_slack_message: header, bug sections, divider, test sections,
divider, footer.  The generation instant is passed as its rendered text. -/
def create_slack_message (bugs_by_sheet : List (String × Nat))
    (test_aggregation : Option TestAggregation) (gen_time : String) : List Block :=
  [Block.header "📊 Weekly QA Report"]
  ++ bugBlocks bugs_by_sheet
  ++ [Block.divider]
  ++ testBlocks test_aggregation
  ++ [Block.divider, Block.context ("Report generated: " ++ gen_time)]

/-! ### get_test_results_from_slack, message loop (qa_report.py lines 226-242) -/

structure SlackMessage where
  text : Option String
  ts : String
deriving DecidableEq

/-- Python substring containment (the in operator) over char lists. -/
def containsSubL (pat : List Char) : List Char → Bool
  | [] => pat.isPrefixOf []
  | c :: t => pat.isPrefixOf (c :: t) || containsSubL pat t

def containsSub (hay pat : String) : Bool := containsSubL pat.data hay.data

/-- Python str.lower (ASCII). -/
def lowerStr (s : String) : String := String.mk (s.data.map Char.toLower)

/-- The pre-filter of line 236. -/
def message_has_test_info (text : String) : Bool :=
  containsSub (lowerStr text) "tests"
    && (containsSub (lowerStr text) "passed" || containsSub (lowerStr text) "failed")

/-- One iteration of the message loop (lines 228-240): skip messages
without a text body, apply the pre-filter, then parse and attach the
source timestamp. -/
def processMessage (message : SlackMessage) : Option TestResult :=
  match message.text with
  | none => none
  | some text =>
    if message_has_test_info text then
      match parse_test_message text with
      | some parsed => some { parsed with timestamp := some message.ts }
      | none => none
    else none

/-- The records collected by the loop, in message order. -/
def get_test_results (messages : List SlackMessage) : List TestResult :=
  messages.filterMap processMessage

/-- Recognizer of a bug-breakdown section block, by its fixed leading text. -/
def isBreakdownBlock : Block → Bool
  | Block.sectionBlock s => "*Breakdown by feature:*".data.isPrefixOf s.data
  | _ => false

end QAReport

namespace QAReport

/-- Evaluation of parse_test_message on a message with no runtime text. -/
lemma parse_example_no_runtime :
    parse_test_message "7 tests from 2 shards: 6 passed, 1 failed, 0 flaky"
      = some { total := 7, passed := 6, failed := 1, flaky := 0,
               pass_rate := (6 : ℚ) / 7 * 100, runtime := "N/A",
               status := "❌ Failed", timestamp := none } := by
  have h1 : searchTest "7 tests from 2 shards: 6 passed, 1 failed, 0 flaky".data
      = some (7, 6, 1, 0) := by decide
  have h2 : searchRuntime "7 tests from 2 shards: 6 passed, 1 failed, 0 flaky".data
      = none := by decide
  rw [parse_test_message, h1, h2]
  norm_num

/-- C3: aggregation of the empty record list is the distinguished none
result, every nonempty list aggregates to a some result, and the none
result is not a some of any aggregate record. -/
theorem c3_empty_aggregate :
    aggregate_test_results [] = none
  ∧ (∀ l : List TestResult, l ≠ [] → ∃ a, aggregate_test_results l = some a)
  ∧ (∀ a : TestAggregation, aggregate_test_results [] ≠ some a) := by
  refine ⟨by rw [aggregate_test_results]; simp, fun l h => ?_, fun a h => ?_⟩
  · rw [aggregate_test_results, if_neg h]
    exact ⟨_, rfl⟩
  · rw [aggregate_test_results] at h
    simp at h

/-- Witness for C3 at a concrete one-element list. -/
theorem c3_witness :
    ∃ a, aggregate_test_results [({ total := 10, passed := 8, failed := 2, flaky := 0, pass_rate := 80, runtime := "N/A", status := "❌ Failed", timestamp := none } : TestResult)] = some a :=
  c3_empty_aggregate.2.1 _ (by simp)

/-- C9: aggregating the single run 10/8/2/0 yields pass rate 80, zero
successful runs, one failed run, one total run. -/
theorem c9_single_run :
    (aggregate_test_results [({ total := 10, passed := 8, failed := 2, flaky := 0, pass_rate := 80, runtime := "N/A", status := "❌ Failed", timestamp := none } : TestResult)]).map
        (fun a => (a.pass_rate, a.successful_runs, a.failed_runs, a.total_runs))
      = some ((80 : ℚ), 0, 1, 1) := by
  rw [aggregate_test_results, if_neg (by simp)]
  simp [List.countP_cons]
  norm_num

/-- C10: for every nonempty run list the aggregate counts the list length,
splits it into successful runs (failed = 0) plus failed runs, and sums
every per-run field. -/
theorem c10_aggregate_invariants :
    ∀ l : List TestResult, l ≠ [] →
      ∃ a, aggregate_test_results l = some a
        ∧ a.successful_runs + a.failed_runs = a.total_runs
        ∧ a.total_runs = l.length
        ∧ a.successful_runs = l.countP (fun r => r.failed == 0)
        ∧ a.total_tests = (l.map TestResult.total).sum
        ∧ a.total_passed = (l.map TestResult.passed).sum
        ∧ a.total_failed = (l.map TestResult.failed).sum
        ∧ a.total_flaky = (l.map TestResult.flaky).sum := by
  intro l h
  rw [aggregate_test_results, if_neg h]
  refine ⟨_, rfl, ?_, rfl, rfl, rfl, rfl, rfl, rfl⟩
  dsimp only
  have hc : l.countP (fun r => r.failed == 0) ≤ l.length := List.countP_le_length _
  omega

/-- Witness for C10 at a concrete one-element list. -/
theorem c10_witness :
    ∃ a, aggregate_test_results [({ total := 10, passed := 8, failed := 2, flaky := 0, pass_rate := 80, runtime := "N/A", status := "❌ Failed", timestamp := none } : TestResult)] = some a
      ∧ a.successful_runs + a.failed_runs = a.total_runs
      ∧ a.total_runs = [({ total := 10, passed := 8, failed := 2, flaky := 0, pass_rate := 80, runtime := "N/A", status := "❌ Failed", timestamp := none } : TestResult)].length
      ∧ a.successful_runs = [({ total := 10, passed := 8, failed := 2, flaky := 0, pass_rate := 80, runtime := "N/A", status := "❌ Failed", timestamp := none } : TestResult)].countP (fun r => r.failed == 0)
      ∧ a.total_tests = ([({ total := 10, passed := 8, failed := 2, flaky := 0, pass_rate := 80, runtime := "N/A", status := "❌ Failed", timestamp := none } : TestResult)].map TestResult.total).sum
      ∧ a.total_passed = ([({ total := 10, passed := 8, failed := 2, flaky := 0, pass_rate := 80, runtime := "N/A", status := "❌ Failed", timestamp := none } : TestResult)].map TestResult.passed).sum
      ∧ a.total_failed = ([({ total := 10, passed := 8, failed := 2, flaky := 0, pass_rate := 80, runtime := "N/A", status := "❌ Failed", timestamp := none } : TestResult)].map TestResult.failed).sum
      ∧ a.total_flaky = ([({ total := 10, passed := 8, failed := 2, flaky := 0, pass_rate := 80, runtime := "N/A", status := "❌ Failed", timestamp := none } : TestResult)].map TestResult.flaky).sum :=
  c10_aggregate_invariants _ (by simp)

end QAReport

namespace QAReport

/-- Evaluation of parse_test_message on the example message of the spec. -/
lemma parse_example_message :
    parse_test_message "120 tests from 4 shards: 115 passed, 5 failed, 2 flaky. Test runtime: 3m45s"
      = some { total := 120, passed := 115, failed := 5, flaky := 2,
               pass_rate := 115 / 120 * 100, runtime := "3m",
               status := "❌ Failed", timestamp := none } := by
  have h1 : searchTest "120 tests from 4 shards: 115 passed, 5 failed, 2 flaky. Test runtime: 3m45s".data
      = some (120, 115, 5, 2) := by decide
  have h2 : searchRuntime "120 tests from 4 shards: 115 passed, 5 failed, 2 flaky. Test runtime: 3m45s".data
      = some "3m".data := by decide
  rw [parse_test_message, h1, h2]
  norm_num

/-- C1 counterexample: on the example message the extractor captures the
runtime "3m", not "3m45s"; the runtime pattern matches one number-unit
pair, so the second pair 45s of 3m45s is left out. -/
theorem c1_runtime_counterexample :
    (parse_test_message "120 tests from 4 shards: 115 passed, 5 failed, 2 flaky. Test runtime: 3m45s").map
        TestResult.runtime = some "3m"
      ∧ ("3m" : String) ≠ "3m45s" := by
  rw [parse_example_message]
  exact ⟨rfl, by decide⟩

/-- C1: the example message parses to total 120, passed 115, failed 5,
flaky 2, pass rate 115/120*100, the failure status (failed exceeds 0),
and runtime "3m" (amended from "3m45s"). -/
theorem c1_example_extraction :
    parse_test_message "120 tests from 4 shards: 115 passed, 5 failed, 2 flaky. Test runtime: 3m45s"
      = some { total := 120, passed := 115, failed := 5, flaky := 2,
               pass_rate := 115 / 120 * 100, runtime := "3m",
               status := "❌ Failed", timestamp := none } :=
  parse_example_message

/-- C8: when the primary grammar matches and the runtime sub-pattern is
absent from the text, extraction still succeeds and the runtime field is
the sentinel "N/A" (amended from "unknown"). -/
theorem c8_runtime_sentinel :
    ∀ (text : String) (r : TestResult),
      parse_test_message text = some r →
      searchRuntime text.data = none →
      r.runtime = "N/A" := by
  intro text r hp hr
  rw [parse_test_message, hr] at hp
  cases hs : searchTest text.data with
  | none => rw [hs] at hp; cases hp
  | some q =>
    obtain ⟨a, b, c, d⟩ := q
    rw [hs] at hp
    cases hp
    rfl

/-- C8 counterexample: when the runtime pattern is absent the runtime
field is the sentinel "N/A", not the string "unknown". -/
theorem c8_runtime_counterexample :
    (parse_test_message "7 tests from 2 shards: 6 passed, 1 failed, 0 flaky").map
        TestResult.runtime = some "N/A"
      ∧ ("N/A" : String) ≠ "unknown" := by
  rw [parse_example_no_runtime]
  exact ⟨rfl, by decide⟩

/-- Witness for C8 at a concrete runtime-free message. -/
theorem c8_witness :
    ({ total := 7, passed := 6, failed := 1, flaky := 0, pass_rate := (6 : ℚ) / 7 * 100,
       runtime := "N/A", status := "❌ Failed", timestamp := none } : TestResult).runtime = "N/A" :=
  c8_runtime_sentinel "7 tests from 2 shards: 6 passed, 1 failed, 0 flaky" _
    parse_example_no_runtime (by decide)

/-- Unparseable strings include the empty string. -/
lemma parse_date_empty : parse_date "" = none := by decide

/-- Membership characterization of record_in_window. -/
lemma record_in_window_iff (today : Int) (date_str : String) :
    record_in_window today date_str = true ↔
      ∃ dt : Date, parse_date date_str = some dt
        ∧ today - 7 * 86400 ≤ dateSeconds dt ∧ dateSeconds dt ≤ today := by
  rw [record_in_window]
  by_cases hs : date_str = ""
  · subst hs
    simp [parse_date_empty]
  · rw [if_neg hs]
    cases h : parse_date date_str with
    | none => simp [h]
    | some dt => simp [h]

/-- C2: a record is counted as in-window exactly when its date string
parses in the month/day/4-digit-year format and the parsed date lies in
the closed interval from today minus seven days to today; a record dated
exactly at today is included, a record dated seven days and one second
before today is excluded, and unparseable strings are excluded. -/
theorem c2_date_window :
    (∀ (today : Int) (date_str : String),
        record_in_window today date_str = true ↔
          ∃ dt : Date, parse_date date_str = some dt
            ∧ today - 7 * 86400 ≤ dateSeconds dt ∧ dateSeconds dt ≤ today)
  ∧ (∀ (today : Int) (date_str : String) (dt : Date),
        parse_date date_str = some dt → dateSeconds dt = today →
        record_in_window today date_str = true)
  ∧ (∀ (today : Int) (date_str : String) (dt : Date),
        parse_date date_str = some dt → dateSeconds dt = today - (7 * 86400 + 1) →
        record_in_window today date_str = false)
  ∧ (∀ (today : Int) (date_str : String),
        parse_date date_str = none → record_in_window today date_str = false) := by
  refine ⟨record_in_window_iff, ?_, ?_, ?_⟩
  · intro today date_str dt hp he
    rw [record_in_window_iff]
    exact ⟨dt, hp, by omega, by omega⟩
  · intro today date_str dt hp he
    rw [← Bool.not_eq_true, record_in_window_iff]
    rintro ⟨dt', hp', h1, h2⟩
    rw [hp] at hp'
    cases hp'
    omega
  · intro today date_str hp
    rw [← Bool.not_eq_true, record_in_window_iff]
    rintro ⟨dt', hp', h1, h2⟩
    rw [hp] at hp'
    cases hp'

/-- Witness for C2 at a concrete date and reference instants. -/
theorem c2_witness :
    record_in_window (dateSeconds ⟨10, 5, 2026⟩) "10/05/2026" = true
  ∧ record_in_window (dateSeconds ⟨10, 5, 2026⟩ + (7 * 86400 + 1)) "10/05/2026" = false
  ∧ record_in_window 0 "not a date" = false := by
  refine ⟨c2_date_window.2.1 _ _ ⟨10, 5, 2026⟩ (by decide) rfl,
          c2_date_window.2.2.1 _ _ ⟨10, 5, 2026⟩ (by decide) (by ring),
          c2_date_window.2.2.2 _ _ (by decide)⟩

end QAReport

namespace QAReport

/-- C4: the test section of the rendered document carries the tier
indicator healthy (green) when the pass rate is at least 95, warning
(yellow) when at least 80 and below 95, critical (red) below 80, with the
boundary instances 95.0, 94.9 and 79.9; a null aggregate renders the
explicit no-test-runs line instead of omitting the section. -/
theorem c4_test_section :
    (∀ a : TestAggregation,
        testBlocks (some a)
          = [Block.sectionBlock ("*🧪 Test Results Summary*\n" ++ pass_rate_emoji a.pass_rate
                ++ " *Pass Rate: " ++ fmtRat1 a.pass_rate ++ "%*"),
             Block.sectionBlock (test_details a)]
        ∧ (95 ≤ a.pass_rate → pass_rate_emoji a.pass_rate = "🟢")
        ∧ (80 ≤ a.pass_rate → a.pass_rate < 95 → pass_rate_emoji a.pass_rate = "🟡")
        ∧ (a.pass_rate < 80 → pass_rate_emoji a.pass_rate = "🔴"))
  ∧ pass_rate_emoji 95 = "🟢"
  ∧ pass_rate_emoji (949 / 10) = "🟡"
  ∧ pass_rate_emoji (799 / 10) = "🔴"
  ∧ testBlocks none = [Block.sectionBlock "*🧪 Test Results:* No test runs found this week"] := by
  refine ⟨fun a => ⟨rfl, fun h95 => ?_, fun h80 h95 => ?_, fun h80 => ?_⟩,
          by norm_num [pass_rate_emoji], by norm_num [pass_rate_emoji],
          by norm_num [pass_rate_emoji], rfl⟩
  · rw [pass_rate_emoji, if_pos h95]
  · rw [pass_rate_emoji, if_neg (by linarith), if_pos h80]
  · rw [pass_rate_emoji, if_neg (by linarith), if_neg (by linarith)]

/-- Witness for C4 at a concrete aggregate with pass rate 94.9. -/
theorem c4_witness : pass_rate_emoji (949 / 10 : ℚ) = "🟡" :=
  (c4_test_section.1 { total_runs := 1, total_tests := 1000, total_passed := 949, total_failed := 51, total_flaky := 0, pass_rate := 949 / 10, successful_runs := 0, failed_runs := 1 }).2.2.1 (by norm_num) (by norm_num)

/-- C5: for every fetch outcome, the bug section shows the total equal to
the sum of all category counts and one breakdown line per configured
category in configured order, with the unit noun pluralized exactly when
the count differs from 1. -/
theorem c5_bug_breakdown :
    ∀ (fetch : String → Option (List String)) (today : Int),
      (bugBlocks (bugs_by_sheet_main today fetch)
          = [Block.sectionBlock ("*🐛 Bugs Found This Week: "
                ++ toString (((bugs_by_sheet_main today fetch).map Prod.snd).sum) ++ "*"),
             Block.sectionBlock ("*Breakdown by feature:*\n"
                ++ String.join ((bugs_by_sheet_main today fetch).map bugLine))])
      ∧ (bugs_by_sheet_main today fetch).map Prod.fst = SHEET_NAMES
      ∧ ((bugs_by_sheet_main today fetch).map bugLine).length = SHEET_NAMES.length
      ∧ (∀ i, i < SHEET_NAMES.length →
          ((bugs_by_sheet_main today fetch).map bugLine).get? i
            = some ("• " ++ SHEET_NAMES.getD i "" ++ ": "
                ++ toString (get_bugs_from_sheet today (fetch (SHEET_NAMES.getD i "")))
                ++ " bug"
                ++ (if get_bugs_from_sheet today (fetch (SHEET_NAMES.getD i "")) ≠ 1 then "s" else "")
                ++ "\n")) := by
  intro fetch today
  have hne : bugs_by_sheet_main today fetch ≠ [] := by
    simp [bugs_by_sheet_main, SHEET_NAMES]
  refine ⟨?_, ?_, ?_, ?_⟩
  · rw [bugBlocks, if_pos hne]
    rfl
  · rfl
  · rfl
  · intro i hi
    have h7 : i < 7 := by simpa [SHEET_NAMES] using hi
    interval_cases i <;> rfl

/-- Witness for C5: the first breakdown line under an all-failing fetch. -/
theorem c5_witness :
    ((bugs_by_sheet_main 0 (fun _ => none)).map bugLine).get? 0
      = some "• Tournaments: 0 bugs\n" := by
  have h := (c5_bug_breakdown (fun _ => none) 0).2.2.2 0 (by decide)
  rw [h]
  rfl

/-- C6 counterexample: for the empty category mapping the rendered
document contains no bug-breakdown section at all, and is one block
shorter than for a nonempty mapping, so the document shape is not
constant over every mapping. -/
theorem c6_empty_mapping_counterexample :
    (create_slack_message [] none "t").all (fun b => ! isBreakdownBlock b) = true
  ∧ (create_slack_message [] none "t").length + 1
      = (create_slack_message [("Tournaments", 0)] none "t").length := by
  exact ⟨by decide, by decide⟩

/-- C6: for every nonempty category mapping the document is the constant
sequence header, bug summary, bug breakdown, divider, test blocks,
divider, footer, and only the null/non-null aggregate distinction changes
the test slot (amended: the mapping must be nonempty, as it always is
when produced from the configured category list; the empty mapping drops
the breakdown section). -/
theorem c6_section_order :
    ∀ (bugs : List (String × Nat)) (agg : Option TestAggregation) (gen_time : String),
      bugs ≠ [] →
      (create_slack_message bugs agg gen_time
        = [Block.header "📊 Weekly QA Report",
           Block.sectionBlock ("*🐛 Bugs Found This Week: " ++ toString (total_bugs bugs) ++ "*"),
           Block.sectionBlock (breakdown_text bugs),
           Block.divider]
          ++ testBlocks agg
          ++ [Block.divider, Block.context ("Report generated: " ++ gen_time)])
      ∧ ((testBlocks agg).length = if agg.isSome then 2 else 1)
      ∧ (agg = none → testBlocks agg
            = [Block.sectionBlock "*🧪 Test Results:* No test runs found this week"]) := by
  intro bugs agg gen_time h
  refine ⟨?_, ?_, fun ha => by subst ha; rfl⟩
  · rw [create_slack_message, bugBlocks, if_pos h]
    simp
  · cases agg <;> rfl

/-- Witness for C6 at a concrete nonempty mapping. -/
theorem c6_witness :
    create_slack_message [("Tournaments", 3)] none "t"
      = [Block.header "📊 Weekly QA Report",
         Block.sectionBlock ("*🐛 Bugs Found This Week: "
            ++ toString (total_bugs [("Tournaments", 3)]) ++ "*"),
         Block.sectionBlock (breakdown_text [("Tournaments", 3)]),
         Block.divider]
        ++ testBlocks none
        ++ [Block.divider, Block.context ("Report generated: " ++ "t")] :=
  (c6_section_order [("Tournaments", 3)] none "t" (by simp)).1

/-- A message whose pre-filter test fails is dropped by the loop step. -/
lemma processMessage_none_of_no_test_info (text ts : String)
    (h : message_has_test_info text = false) :
    processMessage { text := some text, ts := ts } = none := by
  simp [processMessage, h]

/-- The pre-filter is false under the claim's substring conditions. -/
lemma message_has_test_info_false (text : String)
    (h : containsSub (lowerStr text) "tests" = false
      ∨ (containsSub (lowerStr text) "passed" = false
          ∧ containsSub (lowerStr text) "failed" = false)) :
    message_has_test_info text = false := by
  rw [message_has_test_info]
  rcases h with h | ⟨h1, h2⟩
  · simp [h]
  · simp [h1, h2]

/-- C7: a message whose lower-cased text lacks the substring tests, or
lacks both passed and failed, contributes no record: its loop step yields
none, and a message list all of whose texts fail the pre-filter yields an
empty aggregation input. -/
theorem c7_prefilter :
    (∀ (text ts : String),
        (containsSub (lowerStr text) "tests" = false
          ∨ (containsSub (lowerStr text) "passed" = false
              ∧ containsSub (lowerStr text) "failed" = false)) →
        processMessage { text := some text, ts := ts } = none)
  ∧ (∀ messages : List SlackMessage,
        (∀ m ∈ messages, ∀ text, m.text = some text →
          (containsSub (lowerStr text) "tests" = false
            ∨ (containsSub (lowerStr text) "passed" = false
                ∧ containsSub (lowerStr text) "failed" = false))) →
        get_test_results messages = []) := by
  constructor
  · intro text ts h
    exact processMessage_none_of_no_test_info text ts (message_has_test_info_false text h)
  · intro messages h
    rw [get_test_results]
    rw [List.filterMap_eq_nil_iff]
    intro m hm
    obtain ⟨mtext, mts⟩ := m
    cases ht : mtext with
    | none => simp [processMessage, ht]
    | some text =>
      have := h ⟨mtext, mts⟩ hm text (by rw [ht])
      subst ht
      exact processMessage_none_of_no_test_info text mts (message_has_test_info_false text this)

/-- Witness for C7: a parseable message that lacks the substring tests is
still dropped by the pre-filter. -/
theorem c7_witness :
    processMessage { text := some "5 test from 1 shards: 5 passed, 0 failed, 0 flaky",
                     ts := "1" } = none :=
  c7_prefilter.1 _ _ (Or.inl (by decide))

end QAReport
